import Mathlib

/-!
Verification of the fermentation-telemetry backend (the MQTT ingestion
pipeline in the Node.js server).

Shallow embedding conventions:
* JS numbers are modelled as `Rat` (all constants and payload values in the
  claims are exact decimals, so rational arithmetic is faithful for the
  comparisons performed by the code).
* A JS object field that may be `undefined` is modelled as an `Option`;
  for the `event` field, which the code distinguishes between `undefined`,
  `null` and a string, we use `Option (Option String)`
  (`none` = undefined/absent, `some none` = null, `some (some s)` = string).
* The SQLite tables and the WebSocket broadcast are modelled as explicit
  lists inside a `ServerState`; each state-mutating source function becomes
  a `ServerState -> ServerState` function.
* Human-readable `message` strings of alerts (built with template literals
  and `toFixed`) carry no information used by any claim and are elided from
  the `Alert` record; `type`, `severity` and `flask_id` are kept.
-/

/-- An inbound MQTT telemetry payload after `JSON.parse`, with every field
that `normalizeTelemetryPayload`, `validateTelemetryData`,
`saveTelemetryData`, `updateFlaskState` and `checkAlerts` read.
`degC` stands for the JS key `°C` (not a legal Lean name). -/
structure Payload where
  msg_id : Option String
  assay_id : Option String
  flask_id : Option Int
  ts : Option String
  timestamp : Option String
  P_bar_abs : Option Rat
  T_C : Option Rat
  C : Option Rat
  degC : Option Rat
  P_bar_std : Option Rat
  accum_bar_per_h : Option Rat
  accum_bar_per_hr : Option Rat
  relief_count : Option Int
  event : Option (Option String)
  deriving Repr, DecidableEq

/-- A payload with every field absent; concrete payloads are built from it
by structure update. -/
def emptyPayload : Payload :=
  { msg_id := none, assay_id := none, flask_id := none, ts := none,
    timestamp := none, P_bar_abs := none, T_C := none, C := none,
    degC := none, P_bar_std := none, accum_bar_per_h := none,
    accum_bar_per_hr := none, relief_count := none, event := none }

/-- `const RELIEF_THRESHOLD = 1.5; // bar` -/
def RELIEF_THRESHOLD : Rat := mkRat 3 2

/-- `const MAX_PRESSURE = 2.0; // bar` -/
def MAX_PRESSURE : Rat := 2

/-- `const TEMPERATURE_RANGE = { min: 30, max: 45 }; // °C` -/
structure TempRange where
  min : Rat
  max : Rat
  deriving Repr, DecidableEq

def TEMPERATURE_RANGE : TempRange := { min := 30, max := 45 }

/-- The mutable global `alertConfig` object.  The code reads each field with
`??` / `?.` fallbacks, so each field is modelled as an `Option`. -/
structure AlertConfig where
  pressureReliefThreshold : Option Rat
  pressureWarningThreshold : Option Rat
  temperatureRange : Option TempRange
  deriving Repr, DecidableEq

/-- The initial value of the global `alertConfig`:
`{ pressureReliefThreshold: 1.5, pressureWarningThreshold: 2.5,
   temperatureRange: { min: 30, max: 45 } }` -/
def alertConfig0 : AlertConfig :=
  { pressureReliefThreshold := some (mkRat 3 2),
    pressureWarningThreshold := some (mkRat 5 2),
    temperatureRange := some { min := 30, max := 45 } }

/-- `normalizeTelemetryPayload(payload)`: converts alias keys to the
canonical ones and fills defaults for optional fields.  Each `match`
mirrors one `if (normalized.x === undefined)` guard of the source, so an
already-present canonical key is never overwritten. -/
def normalizeTelemetryPayload (p : Payload) : Payload :=
  { p with
    -- temperature may arrive as 'T_C', 'C' or '°C'
    T_C := match p.T_C with
           | some v => some v
           | none => match p.C with
                     | some c => some c
                     | none => p.degC,
    -- timestamp may arrive as 'timestamp'
    ts := match p.ts with
          | some v => some v
          | none => p.timestamp,
    -- 'accum_bar_per_hr' -> 'accum_bar_per_h'
    accum_bar_per_h := match p.accum_bar_per_h with
                       | some v => some v
                       | none => p.accum_bar_per_hr,
    -- default P_bar_std to P_bar_abs when the latter is defined
    P_bar_std := match p.P_bar_std with
                 | some v => some v
                 | none => p.P_bar_abs,
    -- defaults for optional fields
    relief_count := match p.relief_count with
                    | some v => some v
                    | none => some 0,
    event := match p.event with
             | some v => some v
             | none => some none }

/-- `validateTelemetryData(data)`: required-field check, then the pressure
envelope `[0.5, MAX_PRESSURE]`, then the temperature range taken from
`alertConfig.temperatureRange?.min ?? TEMPERATURE_RANGE.min` (same for
max).  A required field that is `undefined` or `null` rejects; in this
embedding both are `none`. -/
def validateTelemetryData (cfg : AlertConfig) (d : Payload) : Bool :=
  if d.msg_id.isNone || d.assay_id.isNone || d.flask_id.isNone
      || d.ts.isNone || d.P_bar_abs.isNone || d.T_C.isNone then
    false
  else
    let p := d.P_bar_abs.getD 0
    let t := d.T_C.getD 0
    if p < mkRat 1 2 || p > MAX_PRESSURE then
      false
    else
      let tmin := (cfg.temperatureRange.map TempRange.min).getD TEMPERATURE_RANGE.min
      let tmax := (cfg.temperatureRange.map TempRange.max).getD TEMPERATURE_RANGE.max
      if t < tmin || t > tmax then false else true

/-- JS `x > c` where `x` may be `undefined`: `undefined > c` is `false`. -/
def jsGtOpt (x : Option Rat) (c : Rat) : Bool :=
  match x with
  | some v => v > c
  | none => false

/-- JS `x < c` where `x` may be `undefined`: `undefined < c` is `false`. -/
def jsLtOpt (x : Option Rat) (c : Rat) : Bool :=
  match x with
  | some v => v < c
  | none => false

/-- One alert record as built by `checkAlerts` / `handleMQTTMessage`
(the human-readable `message` is elided, see the file header). -/
structure Alert where
  flask_id : Option Int
  type : String
  severity : String
  deriving Repr, DecidableEq

/-- The pure part of `checkAlerts(data)`: the list of alerts pushed onto
the local `alerts` array, in source order (pressure rule, temperature
rule, relief-event rule). -/
def checkAlerts (cfg : AlertConfig) (d : Payload) : List Alert :=
  (if jsGtOpt d.P_bar_abs (cfg.pressureReliefThreshold.getD RELIEF_THRESHOLD) then
     [{ flask_id := d.flask_id, type := "high_pressure", severity := "warning" }]
   else [])
  ++
  (if jsLtOpt d.T_C ((cfg.temperatureRange.map TempRange.min).getD TEMPERATURE_RANGE.min)
      || jsGtOpt d.T_C ((cfg.temperatureRange.map TempRange.max).getD TEMPERATURE_RANGE.max) then
     [{ flask_id := d.flask_id, type := "temperature_extreme", severity := "warning" }]
   else [])
  ++
  (if d.event == some (some "relief") then
     [{ flask_id := d.flask_id, type := "pressure_relief", severity := "info" }]
   else [])

/-- JS `a || b` on possibly-undefined numbers: `undefined || b` and
`0 || b` (0 is falsy) both give `b`. -/
def jsOrRat (a : Option Rat) (b : Option Rat) : Option Rat :=
  match a with
  | some v => if v = 0 then b else some v
  | none => b

/-- JS `e || null` on the nullable-string `event` field: `undefined`,
`null` and the falsy empty string all collapse to `null`. -/
def jsOrNullStr (e : Option (Option String)) : Option String :=
  match e with
  | some (some s) => if s = "" then none else some s
  | _ => none

/-- One row of the `telemetry` table, with the column values bound by
`saveTelemetryData` (`pressure_std` is `data.P_bar_std || data.P_bar_abs`,
`production_rate` is `data.accum_bar_per_h || 0`,
`relief_count` is `data.relief_count || 0`, `event` is `data.event || null`). -/
structure TelemetryRow where
  msg_id : Option String
  assay_id : Option String
  flask_id : Option Int
  timestamp : Option String
  pressure_abs : Option Rat
  temperature : Option Rat
  pressure_std : Option Rat
  production_rate : Rat
  relief_count : Int
  event : Option String
  deriving Repr, DecidableEq

def telemetryRowOf (d : Payload) : TelemetryRow :=
  { msg_id := d.msg_id, assay_id := d.assay_id, flask_id := d.flask_id,
    timestamp := d.ts, pressure_abs := d.P_bar_abs, temperature := d.T_C,
    pressure_std := jsOrRat d.P_bar_std d.P_bar_abs,
    production_rate := d.accum_bar_per_h.getD 0,
    relief_count := d.relief_count.getD 0,
    event := jsOrNullStr d.event }

/-- One event handed to `broadcastToWebSocket`.  A `new_alert` event carries
the row id when it comes from `saveAlert`'s insert callback (`this.lastID`)
and no id when `handleMQTTMessage` broadcasts the unsaved alert object. -/
inductive WsEvent where
  | telemetry (d : Payload)
  | newAlert (id : Option Nat) (a : Alert)
  deriving Repr, DecidableEq

/-- One message published on the MQTT client (topic strings are abstracted
to the data the code interpolates into them). -/
inductive MqttOut where
  | alertMsg (flask : Option Int) (ty : String)
  | ackMsg (msg_id : Option String)
  deriving Repr, DecidableEq

/-- One value of the in-memory `flaskStates` map (`updateFlaskState`). -/
structure FlaskState where
  flask_id : Option Int
  assay_id : Option String
  last_pressure : Option Rat
  last_temperature : Option Rat
  last_timestamp : Option String
  relief_count : Int
  status : String
  deriving Repr, DecidableEq

/-- The mutable state of the server that the ingestion path touches:
the capture flag, the global `alertConfig`, the `telemetry` and `alerts`
tables, the in-memory `alerts` array (pairs of row id and alert), the
`flaskStates` map (association list keyed by `data.flask_id`), and the
logs of WebSocket broadcasts and MQTT publishes. -/
structure ServerState where
  telemetryCaptureEnabled : Bool
  alertConfig : AlertConfig
  telemetryRows : List TelemetryRow
  alertRows : List Alert
  alertsMem : List (Nat × Alert)
  flaskStates : List (Option Int × FlaskState)
  wsEvents : List WsEvent
  mqttOut : List MqttOut
  deriving Repr, DecidableEq

/-- Server state at startup: capture disabled, default `alertConfig`,
empty tables and logs. -/
def serverState0 : ServerState :=
  { telemetryCaptureEnabled := false, alertConfig := alertConfig0,
    telemetryRows := [], alertRows := [], alertsMem := [],
    flaskStates := [], wsEvents := [], mqttOut := [] }

def wsPush (s : ServerState) (e : WsEvent) : ServerState :=
  { s with wsEvents := s.wsEvents ++ [e] }

def mqttPush (s : ServerState) (m : MqttOut) : ServerState :=
  { s with mqttOut := s.mqttOut ++ [m] }

/-- Does inserting a row with this `msg_id` violate the
`msg_id TEXT UNIQUE` constraint of the `telemetry` table?  (SQLite UNIQUE
admits any number of NULLs, so a `none` id never conflicts.) -/
def msgIdConflict (rows : List TelemetryRow) (m : Option String) : Bool :=
  match m with
  | none => false
  | some v => rows.any (fun r => r.msg_id == some v)

/-- `saveTelemetryData(data)`: INSERT into `telemetry`; on a UNIQUE
violation the statement's callback only logs the error, so the state is
unchanged. -/
def saveTelemetryData (s : ServerState) (d : Payload) : ServerState :=
  if msgIdConflict s.telemetryRows d.msg_id then s
  else { s with telemetryRows := s.telemetryRows ++ [telemetryRowOf d] }

/-- `if (alerts.length > 100) alerts.splice(0, alerts.length - 100)`. -/
def trimAlerts (l : List (Nat × Alert)) : List (Nat × Alert) :=
  if l.length > 100 then l.drop (l.length - 100) else l

/-- `saveAlert(alert)`: INSERT into `alerts` (AUTOINCREMENT id, modelled
as the row count so far plus one), push `{id: this.lastID, ...alert}` onto
the in-memory `alerts` array capped at 100, and broadcast a `new_alert`
event carrying the saved alert. -/
def saveAlert (s : ServerState) (a : Alert) : ServerState :=
  let id := s.alertRows.length + 1
  { s with alertRows := s.alertRows ++ [a],
           alertsMem := trimAlerts (s.alertsMem ++ [(id, a)]),
           wsEvents := s.wsEvents ++ [WsEvent.newAlert (some id) a] }

/-- Body of the `alerts.forEach` at the end of `checkAlerts`: save the
alert, then publish it on the per-flask alert topic. -/
def fireOne (s : ServerState) (a : Alert) : ServerState :=
  mqttPush (saveAlert s a) (MqttOut.alertMsg a.flask_id a.type)

/-- `checkAlerts(data)` as a state transformer: compute the rule hits and
run `saveAlert` + MQTT publish for each. -/
def runCheckAlerts (s : ServerState) (d : Payload) : ServerState :=
  (checkAlerts s.alertConfig d).foldl fireOne s

def flaskStateOf (d : Payload) : FlaskState :=
  { flask_id := d.flask_id, assay_id := d.assay_id,
    last_pressure := d.P_bar_abs, last_temperature := d.T_C,
    last_timestamp := d.ts, relief_count := d.relief_count.getD 0,
    status := "active" }

/-- The in-place mutation branch of `updateFlaskState`: only the last
sample fields and `relief_count` change; `assay_id` and `status` keep the
values set when the entry was first created. -/
def updateExisting (st : FlaskState) (d : Payload) : FlaskState :=
  { st with last_pressure := d.P_bar_abs, last_temperature := d.T_C,
            last_timestamp := d.ts, relief_count := d.relief_count.getD 0 }

def lookupFlask (m : List (Option Int × FlaskState)) (k : Option Int) :
    Option FlaskState :=
  (m.find? (fun kv => kv.1 == k)).map Prod.snd

/-- `updateFlaskState(data)`: create the map entry on first sight of a
flask id, otherwise mutate the existing entry in place. -/
def updateFlaskState (s : ServerState) (d : Payload) : ServerState :=
  match s.flaskStates.find? (fun kv => kv.1 == d.flask_id) with
  | none => { s with flaskStates := s.flaskStates ++ [(d.flask_id, flaskStateOf d)] }
  | some _ =>
      { s with flaskStates :=
          (s.flaskStates.map fun kv =>
            if kv.1 == d.flask_id then (kv.1, updateExisting kv.2 d) else kv) }

/-- `processTelemetryData(data, namespace)`: validate; if rejected, only a
console log happens and the state is untouched.  Otherwise persist iff
`telemetryCaptureEnabled`, update the flask state, run `checkAlerts`,
broadcast one `telemetry` event, and publish the ack. -/
def processTelemetryData (s : ServerState) (d : Payload) : ServerState :=
  if validateTelemetryData s.alertConfig d = false then s
  else
    let s1 := if s.telemetryCaptureEnabled then saveTelemetryData s d else s
    let s2 := updateFlaskState s1 d
    let s3 := runCheckAlerts s2 d
    let s4 := wsPush s3 (WsEvent.telemetry d)
    mqttPush s4 (MqttOut.ackMsg d.msg_id)

/-- The telemetry branch of `handleMQTTMessage(topic, message)` for an
already-JSON-parsed payload: normalize, run `processTelemetryData`, then
unconditionally broadcast a second `telemetry` event, then the inline
`data.P_bar_abs > 2.5` check that saves and broadcasts a
`pressure_warning` alert of severity `high` (the broadcast of the unsaved
alert object is the id-less `newAlert` event; `saveAlert` itself also
broadcasts the saved alert from its insert callback). -/
def handleTelemetryMessage (s : ServerState) (raw : Payload) : ServerState :=
  let data := normalizeTelemetryPayload raw
  let s1 := processTelemetryData s data
  let s2 := wsPush s1 (WsEvent.telemetry data)
  if jsGtOpt data.P_bar_abs (mkRat 5 2) then
    let a : Alert := { flask_id := data.flask_id, type := "pressure_warning",
                       severity := "high" }
    let s3 := saveAlert s2 a
    let s4 := wsPush s3 (WsEvent.newAlert none a)
    mqttPush s4 (MqttOut.alertMsg a.flask_id a.type)
  else s2

/-- A list of inbound telemetry payloads processed in arrival order by
`processTelemetryData`. -/
def ingestList (s : ServerState) (ds : List Payload) : ServerState :=
  ds.foldl processTelemetryData s

def WsEvent.isTelemetryEvt : WsEvent → Bool
  | .telemetry _ => true
  | _ => false

def WsEvent.isNewAlertEvt : WsEvent → Bool
  | .newAlert _ _ => true
  | _ => false

def countTelemetryEvents (l : List WsEvent) : Nat :=
  (l.filter WsEvent.isTelemetryEvt).length

def countNewAlertEvents (l : List WsEvent) : Nat :=
  (l.filter WsEvent.isNewAlertEvt).length

/-- One row of the `capture_sessions` table. -/
structure CaptureSession where
  id : Nat
  status : String
  startedAt : String
  stoppedAt : Option String
  trigger : Option String
  assayId : Option String
  deriving Repr, DecidableEq

/-- The capture-session controller state: the `capture_sessions` table,
the global `currentCaptureSessionId`, and the global
`telemetryCaptureEnabled` flag. -/
structure CaptureState where
  sessions : List CaptureSession
  currentCaptureSessionId : Option Nat
  telemetryCaptureEnabled : Bool
  deriving Repr, DecidableEq

/-- Startup state: no sessions, no current id, capture disabled. -/
def captureState0 : CaptureState :=
  { sessions := [], currentCaptureSessionId := none,
    telemetryCaptureEnabled := false }

/-- `openCaptureSession(trigger, assayId)`: INSERT a new `enabled` session
(AUTOINCREMENT id modelled as row count plus one), remember its id in
`currentCaptureSessionId`, set `telemetryCaptureEnabled = true`.  The
function does not touch any existing session row. -/
def openCaptureSession (st : CaptureState) (trigger assayId : Option String)
    (startedAt : String) : CaptureState :=
  let nid := st.sessions.length + 1
  { sessions := st.sessions ++
      [{ id := nid, status := "enabled", startedAt := startedAt,
         stoppedAt := none, trigger := trigger, assayId := assayId }],
    currentCaptureSessionId := some nid,
    telemetryCaptureEnabled := true }

/-- `closeCaptureSession(trigger)`: if a current session id is set, UPDATE
that row to `disabled` with `stopped_at`, and clear the current id; in
every case set `telemetryCaptureEnabled = false`. -/
def closeCaptureSession (st : CaptureState) (trigger : Option String)
    (stoppedAt : String) : CaptureState :=
  match st.currentCaptureSessionId with
  | some i =>
      { sessions :=
          (st.sessions.map fun c =>
            if c.id == i then
              { c with status := "disabled", stoppedAt := some stoppedAt,
                       trigger := trigger }
            else c),
        currentCaptureSessionId := none,
        telemetryCaptureEnabled := false }
  | none => { st with telemetryCaptureEnabled := false }

def enabledSessions (st : CaptureState) : List CaptureSession :=
  st.sessions.filter (fun c => c.status == "enabled")

/-- Lexicographic comparison of code-point lists, the order SQLite's
BINARY collation induces on the ASCII ISO-8601 timestamps the server
stores. -/
def charListLe : List Char → List Char → Bool
  | [], _ => true
  | _ :: _, [] => false
  | x :: xs, y :: ys =>
      if x.toNat < y.toNat then true
      else if y.toNat < x.toNat then false
      else charListLe xs ys

/-- SQLite TEXT `<=` (BINARY collation: byte-wise, which on the ASCII
timestamp strings used here is the same as code-point order). -/
def sqliteTextLe (a b : String) : Bool := charListLe a.data b.data

/-- The SQL window predicate of `exportTelemetryWindowToCSV`:
`timestamp >= ? AND timestamp <= ?` (a closed interval on both ends; a
NULL timestamp never matches). -/
def inExportWindow (startISO endISO : String) (r : TelemetryRow) : Bool :=
  match r.timestamp with
  | some ts => sqliteTextLe startISO ts && sqliteTextLe ts endISO
  | none => false

/-- Stable insertion for `ORDER BY timestamp ASC`. -/
def insertByTs (r : TelemetryRow) : List TelemetryRow → List TelemetryRow
  | [] => [r]
  | x :: xs =>
      if sqliteTextLe (x.timestamp.getD "") (r.timestamp.getD "") then
        x :: insertByTs r xs
      else r :: x :: xs

def orderByTimestamp (rows : List TelemetryRow) : List TelemetryRow :=
  rows.foldr insertByTs []

/-- `exportTelemetryWindowToCSV(startISO, endISO)` reading from the given
`telemetry` table: select the rows in the closed window ordered by
timestamp; an empty selection resolves `null` and writes no file,
otherwise the selected batch is the written artifact. -/
def exportTelemetryWindowToCSV (rows : List TelemetryRow)
    (startISO endISO : String) : Option (List TelemetryRow) :=
  let sel := orderByTimestamp (rows.filter (inExportWindow startISO endISO))
  if sel.isEmpty then none else some sel

/-- The watermark kept by `scheduleCsvAutoExport`. -/
structure CsvExportState where
  lastCsvExportAt : String
  deriving Repr, DecidableEq

/-- One tick of the `setInterval` callback in `scheduleCsvAutoExport`: run
the export for `[lastCsvExportAt, now]` and then set
`lastCsvExportAt = now`.  The export promise resolves (rather than
rejects) on an empty window, so the watermark advances regardless of
whether an artifact was produced; the DB/fs error paths that reject are
outside this model. -/
def csvTick (rows : List TelemetryRow) (st : CsvExportState) (now : String) :
    CsvExportState × Option (List TelemetryRow) :=
  ({ lastCsvExportAt := now },
   exportTelemetryWindowToCSV rows st.lastCsvExportAt now)

/-! Concrete inputs used by the theorems below. -/

/-- The end-to-end scenario Reading of the spec:
`{msg_id:"a", assay_id:"X", flask_id:1, ts:"2024-01-01T00:00:00Z",
P_bar_abs:1.6, T_C:39.0}`. -/
def raw7 : Payload :=
  { emptyPayload with msg_id := some "a", assay_id := some "X",
                      flask_id := some 1, ts := some "2024-01-01T00:00:00Z",
                      P_bar_abs := some (mkRat 8 5), T_C := some 39 }

/-- A second valid Reading for a different flask. -/
def raw8 : Payload :=
  { emptyPayload with msg_id := some "b", assay_id := some "X",
                      flask_id := some 2, ts := some "2024-01-01T00:00:15Z",
                      P_bar_abs := some 1, T_C := some 39 }

/-- A structurally parseable payload that fails validation: its
temperature is missing under every accepted key. -/
def rawBad : Payload :=
  { emptyPayload with msg_id := some "m", assay_id := some "X",
                      flask_id := some 1, ts := some "2024-01-01T00:00:00Z",
                      P_bar_abs := some 1 }

/-- A structurally parseable payload that fails validation because its
pressure (3 bar) is outside the plausibility envelope, while also
exceeding the inline 2.5 bar check of `handleMQTTMessage`. -/
def rawOverpressure : Payload :=
  { emptyPayload with msg_id := some "p", assay_id := some "X",
                      flask_id := some 1, ts := some "2024-01-01T00:00:00Z",
                      P_bar_abs := some 3, T_C := some 39 }

/-- The startup server state with a capture session open
(`telemetryCaptureEnabled = true`). -/
def serverEnabled0 : ServerState :=
  { serverState0 with telemetryCaptureEnabled := true }

/-- A persisted row whose timestamp falls exactly on an export-tick
boundary. -/
def rowOnBoundary : TelemetryRow :=
  telemetryRowOf { raw7 with ts := some "2024-01-01T00:05:00Z" }

/-- A payload with every canonical key already present, used to witness
that normalization preserves them. -/
def rawCanonical : Payload :=
  { emptyPayload with T_C := some 39, ts := some "2024-01-01T00:00:00Z",
                      accum_bar_per_h := some 1, P_bar_std := some 1,
                      relief_count := some 2, event := some (some "relief") }

/-! Claim C5: strictness of the high-pressure threshold. -/

/-- Claim C5: for a valid Reading whose `pressureAbs` equals the
configured `pressureReliefThreshold` exactly, `checkAlerts` fires no
`high_pressure` alert (the comparison is strict `>`); for `pressureAbs`
strictly above the threshold it fires exactly one `high_pressure` alert,
with severity `warning`. -/
theorem C5_threshold_strict (cfg : AlertConfig) (d : Payload) (p : Rat)
    (hp : d.P_bar_abs = some p)
    (hvalid : validateTelemetryData cfg d = true) :
    (p = cfg.pressureReliefThreshold.getD RELIEF_THRESHOLD →
        (checkAlerts cfg d).filter (fun a => a.type == "high_pressure") = [])
    ∧ (p > cfg.pressureReliefThreshold.getD RELIEF_THRESHOLD →
        (checkAlerts cfg d).filter (fun a => a.type == "high_pressure")
          = [{ flask_id := d.flask_id, type := "high_pressure",
               severity := "warning" }]) := by
  constructor
  · intro heq
    have hgt : jsGtOpt d.P_bar_abs (cfg.pressureReliefThreshold.getD RELIEF_THRESHOLD)
        = false := by
      rw [hp]; simp [jsGtOpt, heq]
    simp only [checkAlerts, hgt, Bool.false_eq_true, if_false, List.nil_append,
      List.filter_append]
    split <;> split <;> simp
  · intro hgt'
    have hgt : jsGtOpt d.P_bar_abs (cfg.pressureReliefThreshold.getD RELIEF_THRESHOLD)
        = true := by
      rw [hp]; simp [jsGtOpt, hgt']
    simp only [checkAlerts, hgt, if_true, List.filter_append]
    split <;> split <;> simp

/-- Witness for C5 at the concrete scenario Reading (pressure 1.6 bar
against the default 1.5 bar threshold). -/
theorem C5_witness :
    validateTelemetryData alertConfig0 raw7 = true
    ∧ (checkAlerts alertConfig0 raw7).filter (fun a => a.type == "high_pressure")
        = [{ flask_id := some 1, type := "high_pressure", severity := "warning" }] :=
  ⟨by decide,
   (C5_threshold_strict alertConfig0 raw7 (mkRat 8 5) rfl (by decide)).2 (by decide)⟩

/-! Claim C8: the temperature acceptance window of the Validator. -/

/-- Claim C8: for a Reading with all other required fields present and a
pressure inside the plausibility envelope, the Validator accepts exactly
the temperatures in `[temperatureMin, temperatureMax]` (the borders are
accepted, everything outside is rejected; the "fixed tolerance band"
extending the configured range is zero in the code). -/
theorem C8_temperature_boundary (cfg : AlertConfig) (d : Payload)
    (p t tmin tmax : Rat)
    (ht : d.T_C = some t)
    (hrange : cfg.temperatureRange = some { min := tmin, max := tmax })
    (hm : d.msg_id.isSome) (ha : d.assay_id.isSome) (hf : d.flask_id.isSome)
    (hts : d.ts.isSome)
    (hp : d.P_bar_abs = some p)
    (hplo : mkRat 1 2 ≤ p) (hphi : p ≤ MAX_PRESSURE) :
    validateTelemetryData cfg d = true ↔ (tmin ≤ t ∧ t ≤ tmax) := by
  obtain ⟨m, hm'⟩ := Option.isSome_iff_exists.mp hm
  obtain ⟨a, ha'⟩ := Option.isSome_iff_exists.mp ha
  obtain ⟨f, hf'⟩ := Option.isSome_iff_exists.mp hf
  obtain ⟨u, hts'⟩ := Option.isSome_iff_exists.mp hts
  have h1 : (p < mkRat 1 2) = False := eq_false (not_lt.mpr hplo)
  have h2 : (p > MAX_PRESSURE) = False := eq_false (not_lt.mpr hphi)
  simp [validateTelemetryData, hm', ha', hf', hts', hp, ht, hrange, h1, h2,
    not_or, not_lt]

/-- Witness for C8: the scenario Reading with temperature exactly at the
configured minimum (30 °C) is accepted. -/
theorem C8_witness :
    validateTelemetryData alertConfig0 { raw7 with T_C := some 30 } = true :=
  (C8_temperature_boundary alertConfig0 { raw7 with T_C := some 30 }
      (mkRat 8 5) 30 30 45 rfl rfl (by decide) (by decide) (by decide)
      (by decide) rfl (by decide) (by decide)).mpr ⟨by decide, by decide⟩

/-! Claim C9: defaults filled by the Reading Codec. -/

/-- Counterexample to claim C9: for a payload without an `event` key the
normalized Reading's `event` is JSON `null` (here `some none`), not the
string `"none"`. -/
theorem C9_counterexample :
    (normalizeTelemetryPayload emptyPayload).event = some none
    ∧ (normalizeTelemetryPayload emptyPayload).event ≠ some (some "none")
    ∧ (normalizeTelemetryPayload emptyPayload).relief_count = some 0 := by
  decide

/-- Claim C9 as amended: `normalizeTelemetryPayload` fills safe defaults
instead of failing — `relief_count` becomes 0 when absent, and `event`
becomes `null` (not the string `"none"`) when absent. -/
theorem C9_amended_defaults (p : Payload) :
    (p.relief_count = none → (normalizeTelemetryPayload p).relief_count = some 0)
    ∧ (p.event = none → (normalizeTelemetryPayload p).event = some none) := by
  constructor
  · intro h; simp [normalizeTelemetryPayload, h]
  · intro h; simp [normalizeTelemetryPayload, h]

/-- Witness for the amended C9 at the empty payload. -/
theorem C9_witness :
    (normalizeTelemetryPayload emptyPayload).relief_count = some 0
    ∧ (normalizeTelemetryPayload emptyPayload).event = some none :=
  ⟨(C9_amended_defaults emptyPayload).1 rfl, (C9_amended_defaults emptyPayload).2 rfl⟩

/-! Claim C10: idempotence and canonical-preservation of the Codec. -/

/-- Claim C10: normalization is idempotent, and a canonical key already
present in the payload keeps its value (aliases never override it). -/
theorem C10_normalize_idempotent (p : Payload) :
    normalizeTelemetryPayload (normalizeTelemetryPayload p) = normalizeTelemetryPayload p
    ∧ (p.T_C.isSome → (normalizeTelemetryPayload p).T_C = p.T_C)
    ∧ (p.ts.isSome → (normalizeTelemetryPayload p).ts = p.ts)
    ∧ (p.accum_bar_per_h.isSome →
        (normalizeTelemetryPayload p).accum_bar_per_h = p.accum_bar_per_h)
    ∧ (p.P_bar_std.isSome → (normalizeTelemetryPayload p).P_bar_std = p.P_bar_std)
    ∧ (p.relief_count.isSome →
        (normalizeTelemetryPayload p).relief_count = p.relief_count)
    ∧ (p.event.isSome → (normalizeTelemetryPayload p).event = p.event) := by
  refine ⟨?_, ?_, ?_, ?_, ?_, ?_, ?_⟩
  · simp only [normalizeTelemetryPayload]
    cases p.T_C <;> cases p.C <;> cases p.degC <;> cases p.ts <;>
      cases p.timestamp <;> cases p.accum_bar_per_h <;> cases p.accum_bar_per_hr <;>
      cases p.P_bar_std <;> cases p.P_bar_abs <;> cases p.relief_count <;>
      cases p.event <;> rfl
  · intro h
    obtain ⟨v, hv⟩ := Option.isSome_iff_exists.mp h
    simp [normalizeTelemetryPayload, hv]
  · intro h
    obtain ⟨v, hv⟩ := Option.isSome_iff_exists.mp h
    simp [normalizeTelemetryPayload, hv]
  · intro h
    obtain ⟨v, hv⟩ := Option.isSome_iff_exists.mp h
    simp [normalizeTelemetryPayload, hv]
  · intro h
    obtain ⟨v, hv⟩ := Option.isSome_iff_exists.mp h
    simp [normalizeTelemetryPayload, hv]
  · intro h
    obtain ⟨v, hv⟩ := Option.isSome_iff_exists.mp h
    simp [normalizeTelemetryPayload, hv]
  · intro h
    obtain ⟨v, hv⟩ := Option.isSome_iff_exists.mp h
    simp [normalizeTelemetryPayload, hv]

/-- Witness for C10 at a payload carrying every canonical key. -/
theorem C10_witness :
    normalizeTelemetryPayload (normalizeTelemetryPayload rawCanonical)
        = normalizeTelemetryPayload rawCanonical
    ∧ (normalizeTelemetryPayload rawCanonical).T_C = rawCanonical.T_C
    ∧ (normalizeTelemetryPayload rawCanonical).ts = rawCanonical.ts
    ∧ (normalizeTelemetryPayload rawCanonical).accum_bar_per_h
        = rawCanonical.accum_bar_per_h
    ∧ (normalizeTelemetryPayload rawCanonical).P_bar_std = rawCanonical.P_bar_std
    ∧ (normalizeTelemetryPayload rawCanonical).relief_count
        = rawCanonical.relief_count
    ∧ (normalizeTelemetryPayload rawCanonical).event = rawCanonical.event := by
  have h := C10_normalize_idempotent rawCanonical
  exact ⟨h.1, h.2.1 (by decide), h.2.2.1 (by decide), h.2.2.2.1 (by decide),
    h.2.2.2.2.1 (by decide), h.2.2.2.2.2.1 (by decide), h.2.2.2.2.2.2 (by decide)⟩

/-! Component-preservation lemmas for the state-transformer embedding. -/

theorem fireOne_alertConfig (s : ServerState) (a : Alert) :
    (fireOne s a).alertConfig = s.alertConfig := rfl

theorem fireOne_enabled (s : ServerState) (a : Alert) :
    (fireOne s a).telemetryCaptureEnabled = s.telemetryCaptureEnabled := rfl

theorem fireOne_telemetryRows (s : ServerState) (a : Alert) :
    (fireOne s a).telemetryRows = s.telemetryRows := rfl

theorem fireOne_flaskStates (s : ServerState) (a : Alert) :
    (fireOne s a).flaskStates = s.flaskStates := rfl

theorem fireOne_alertRows (s : ServerState) (a : Alert) :
    (fireOne s a).alertRows = s.alertRows ++ [a] := rfl

theorem fireOne_wsEvents (s : ServerState) (a : Alert) :
    (fireOne s a).wsEvents
      = s.wsEvents ++ [WsEvent.newAlert (some (s.alertRows.length + 1)) a] := rfl

theorem countTelemetryEvents_append (l1 l2 : List WsEvent) :
    countTelemetryEvents (l1 ++ l2)
      = countTelemetryEvents l1 + countTelemetryEvents l2 := by
  simp [countTelemetryEvents, List.filter_append]

theorem countTelemetryEvents_newAlert (i : Option Nat) (a : Alert) :
    countTelemetryEvents [WsEvent.newAlert i a] = 0 := rfl

theorem countTelemetryEvents_telemetry (d : Payload) :
    countTelemetryEvents [WsEvent.telemetry d] = 1 := rfl

theorem countNewAlertEvents_append (l1 l2 : List WsEvent) :
    countNewAlertEvents (l1 ++ l2)
      = countNewAlertEvents l1 + countNewAlertEvents l2 := by
  simp [countNewAlertEvents, List.filter_append]

theorem countNewAlertEvents_newAlert (i : Option Nat) (a : Alert) :
    countNewAlertEvents [WsEvent.newAlert i a] = 1 := rfl

theorem countNewAlertEvents_telemetry (d : Payload) :
    countNewAlertEvents [WsEvent.telemetry d] = 0 := rfl

theorem foldlFireOne_alertConfig (l : List Alert) :
    ∀ s : ServerState, (l.foldl fireOne s).alertConfig = s.alertConfig := by
  induction l with
  | nil => intro s; rfl
  | cons a t ih => intro s; rw [List.foldl_cons, ih, fireOne_alertConfig]

theorem foldlFireOne_enabled (l : List Alert) :
    ∀ s : ServerState,
      (l.foldl fireOne s).telemetryCaptureEnabled = s.telemetryCaptureEnabled := by
  induction l with
  | nil => intro s; rfl
  | cons a t ih => intro s; rw [List.foldl_cons, ih, fireOne_enabled]

theorem foldlFireOne_telemetryRows (l : List Alert) :
    ∀ s : ServerState, (l.foldl fireOne s).telemetryRows = s.telemetryRows := by
  induction l with
  | nil => intro s; rfl
  | cons a t ih => intro s; rw [List.foldl_cons, ih, fireOne_telemetryRows]

theorem foldlFireOne_flaskStates (l : List Alert) :
    ∀ s : ServerState, (l.foldl fireOne s).flaskStates = s.flaskStates := by
  induction l with
  | nil => intro s; rfl
  | cons a t ih => intro s; rw [List.foldl_cons, ih, fireOne_flaskStates]

theorem foldlFireOne_alertRows (l : List Alert) :
    ∀ s : ServerState, (l.foldl fireOne s).alertRows = s.alertRows ++ l := by
  induction l with
  | nil => intro s; simp
  | cons a t ih => intro s; rw [List.foldl_cons, ih, fireOne_alertRows]; simp

theorem foldlFireOne_telemetryCount (l : List Alert) :
    ∀ s : ServerState,
      countTelemetryEvents (l.foldl fireOne s).wsEvents
        = countTelemetryEvents s.wsEvents := by
  induction l with
  | nil => intro s; rfl
  | cons a t ih =>
      intro s
      rw [List.foldl_cons, ih, fireOne_wsEvents, countTelemetryEvents_append,
        countTelemetryEvents_newAlert, Nat.add_zero]

theorem updateFlaskState_alertConfig (s : ServerState) (d : Payload) :
    (updateFlaskState s d).alertConfig = s.alertConfig := by
  unfold updateFlaskState; split <;> rfl

theorem updateFlaskState_enabled (s : ServerState) (d : Payload) :
    (updateFlaskState s d).telemetryCaptureEnabled = s.telemetryCaptureEnabled := by
  unfold updateFlaskState; split <;> rfl

theorem updateFlaskState_telemetryRows (s : ServerState) (d : Payload) :
    (updateFlaskState s d).telemetryRows = s.telemetryRows := by
  unfold updateFlaskState; split <;> rfl

theorem updateFlaskState_alertRows (s : ServerState) (d : Payload) :
    (updateFlaskState s d).alertRows = s.alertRows := by
  unfold updateFlaskState; split <;> rfl

theorem updateFlaskState_wsEvents (s : ServerState) (d : Payload) :
    (updateFlaskState s d).wsEvents = s.wsEvents := by
  unfold updateFlaskState; split <;> rfl

theorem saveTelemetryData_alertConfig (s : ServerState) (d : Payload) :
    (saveTelemetryData s d).alertConfig = s.alertConfig := by
  unfold saveTelemetryData; split <;> rfl

theorem saveTelemetryData_enabled (s : ServerState) (d : Payload) :
    (saveTelemetryData s d).telemetryCaptureEnabled = s.telemetryCaptureEnabled := by
  unfold saveTelemetryData; split <;> rfl

theorem saveTelemetryData_flaskStates (s : ServerState) (d : Payload) :
    (saveTelemetryData s d).flaskStates = s.flaskStates := by
  unfold saveTelemetryData; split <;> rfl

theorem saveTelemetryData_alertRows (s : ServerState) (d : Payload) :
    (saveTelemetryData s d).alertRows = s.alertRows := by
  unfold saveTelemetryData; split <;> rfl

theorem saveTelemetryData_wsEvents (s : ServerState) (d : Payload) :
    (saveTelemetryData s d).wsEvents = s.wsEvents := by
  unfold saveTelemetryData; split <;> rfl

theorem processTelemetryData_invalid (s : ServerState) (d : Payload)
    (h : validateTelemetryData s.alertConfig d = false) :
    processTelemetryData s d = s := by
  unfold processTelemetryData; simp [h]

theorem captureIf_alertConfig (s : ServerState) (d : Payload) :
    (if s.telemetryCaptureEnabled then saveTelemetryData s d else s).alertConfig
      = s.alertConfig := by
  split
  · exact saveTelemetryData_alertConfig s d
  · rfl

theorem captureIf_enabled (s : ServerState) (d : Payload) :
    (if s.telemetryCaptureEnabled then saveTelemetryData s d else s).telemetryCaptureEnabled
      = s.telemetryCaptureEnabled := by
  split
  · exact saveTelemetryData_enabled s d
  · rfl

theorem processTelemetryData_alertConfig (s : ServerState) (d : Payload) :
    (processTelemetryData s d).alertConfig = s.alertConfig := by
  unfold processTelemetryData
  split
  · rfl
  · simp [mqttPush, wsPush, runCheckAlerts, foldlFireOne_alertConfig,
      updateFlaskState_alertConfig, captureIf_alertConfig]

theorem processTelemetryData_enabled (s : ServerState) (d : Payload) :
    (processTelemetryData s d).telemetryCaptureEnabled
      = s.telemetryCaptureEnabled := by
  unfold processTelemetryData
  split
  · rfl
  · simp [mqttPush, wsPush, runCheckAlerts, foldlFireOne_enabled,
      updateFlaskState_enabled, captureIf_enabled]

theorem processTelemetryData_rows_disabled (s : ServerState) (d : Payload)
    (h : s.telemetryCaptureEnabled = false) :
    (processTelemetryData s d).telemetryRows = s.telemetryRows := by
  unfold processTelemetryData
  split
  · rfl
  · simp [mqttPush, wsPush, runCheckAlerts, foldlFireOne_telemetryRows,
      updateFlaskState_telemetryRows, h]

theorem processTelemetryData_count_valid (s : ServerState) (d : Payload)
    (h : validateTelemetryData s.alertConfig d = true) :
    countTelemetryEvents (processTelemetryData s d).wsEvents
      = countTelemetryEvents s.wsEvents + 1 := by
  unfold processTelemetryData
  rw [h]
  simp only [Bool.true_eq_false, if_false, mqttPush, wsPush]
  rw [countTelemetryEvents_append, countTelemetryEvents_telemetry,
    runCheckAlerts, foldlFireOne_telemetryCount]
  have hws : (updateFlaskState
      (if s.telemetryCaptureEnabled then saveTelemetryData s d else s) d).wsEvents
      = s.wsEvents := by
    rw [updateFlaskState_wsEvents]
    split
    · exact saveTelemetryData_wsEvents s d
    · rfl
  rw [hws]

theorem find_map_update (d : Payload) (l : List (Option Int × FlaskState))
    (kv0 : Option Int × FlaskState)
    (h : l.find? (fun kv => kv.1 == d.flask_id) = some kv0) :
    (l.map fun kv =>
        if kv.1 == d.flask_id then (kv.1, updateExisting kv.2 d) else kv).find?
      (fun kv => kv.1 == d.flask_id) = some (kv0.1, updateExisting kv0.2 d) := by
  induction l with
  | nil => simp at h
  | cons x t ih =>
      by_cases hx : (x.1 == d.flask_id) = true
      · simp only [List.find?_cons, hx] at h
        injection h with h
        subst h
        have heq : x.1 = d.flask_id := by simpa using hx
        simp [List.find?_cons, heq]
      · have hx' : (x.1 == d.flask_id) = false := by simpa using hx
        simp only [List.find?_cons, hx'] at h
        simp only [List.map_cons, hx', Bool.false_eq_true, if_false,
          List.find?_cons]
        exact ih h

theorem lookupFlask_after_update (s : ServerState) (d : Payload) :
    ∃ fs, lookupFlask (updateFlaskState s d).flaskStates d.flask_id = some fs
      ∧ fs.last_pressure = d.P_bar_abs
      ∧ fs.last_temperature = d.T_C
      ∧ fs.last_timestamp = d.ts := by
  unfold updateFlaskState
  cases hfind : s.flaskStates.find? (fun kv => kv.1 == d.flask_id) with
  | none =>
      refine ⟨flaskStateOf d, ?_, rfl, rfl, rfl⟩
      unfold lookupFlask
      simp [List.find?_append, hfind, flaskStateOf]
  | some kv0 =>
      refine ⟨updateExisting kv0.2 d, ?_, rfl, rfl, rfl⟩
      unfold lookupFlask
      simp only []
      rw [find_map_update d _ kv0 hfind]
      rfl

theorem processTelemetryData_flask_valid (s : ServerState) (d : Payload)
    (h : validateTelemetryData s.alertConfig d = true) :
    ∃ fs, lookupFlask (processTelemetryData s d).flaskStates d.flask_id = some fs
      ∧ fs.last_pressure = d.P_bar_abs
      ∧ fs.last_temperature = d.T_C
      ∧ fs.last_timestamp = d.ts := by
  unfold processTelemetryData
  rw [h]
  simp only [Bool.true_eq_false, if_false]
  have hst : (mqttPush (wsPush (runCheckAlerts (updateFlaskState
      (if s.telemetryCaptureEnabled then saveTelemetryData s d else s) d) d)
      (WsEvent.telemetry d)) (MqttOut.ackMsg d.msg_id)).flaskStates
      = (updateFlaskState
          (if s.telemetryCaptureEnabled then saveTelemetryData s d else s)
          d).flaskStates := by
    simp [mqttPush, wsPush, runCheckAlerts, foldlFireOne_flaskStates]
  rw [hst]
  exact lookupFlask_after_update _ d

theorem ingestList_alertConfig (ds : List Payload) :
    ∀ s : ServerState, (ingestList s ds).alertConfig = s.alertConfig := by
  induction ds with
  | nil => intro s; rfl
  | cons d t ih =>
      intro s
      show (ingestList (processTelemetryData s d) t).alertConfig = s.alertConfig
      rw [ih, processTelemetryData_alertConfig]

theorem ingestList_enabled (ds : List Payload) :
    ∀ s : ServerState,
      (ingestList s ds).telemetryCaptureEnabled = s.telemetryCaptureEnabled := by
  induction ds with
  | nil => intro s; rfl
  | cons d t ih =>
      intro s
      show (ingestList (processTelemetryData s d) t).telemetryCaptureEnabled
        = s.telemetryCaptureEnabled
      rw [ih, processTelemetryData_enabled]

theorem ingestList_rows_disabled (ds : List Payload) :
    ∀ s : ServerState, s.telemetryCaptureEnabled = false →
      (ingestList s ds).telemetryRows = s.telemetryRows := by
  induction ds with
  | nil => intro s _; rfl
  | cons d t ih =>
      intro s hcap
      show (ingestList (processTelemetryData s d) t).telemetryRows
        = s.telemetryRows
      rw [ih (processTelemetryData s d)
            (by rw [processTelemetryData_enabled]; exact hcap),
          processTelemetryData_rows_disabled s d hcap]

theorem ingestList_count_valid (ds : List Payload) :
    ∀ s : ServerState,
      (∀ d ∈ ds, validateTelemetryData s.alertConfig d = true) →
      countTelemetryEvents (ingestList s ds).wsEvents
        = countTelemetryEvents s.wsEvents + ds.length := by
  induction ds with
  | nil => intro s _; rfl
  | cons d t ih =>
      intro s hvalid
      show countTelemetryEvents (ingestList (processTelemetryData s d) t).wsEvents
        = countTelemetryEvents s.wsEvents + (d :: t).length
      rw [ih (processTelemetryData s d)
            (by intro x hx
                rw [processTelemetryData_alertConfig]
                exact hvalid x (List.mem_cons_of_mem d hx)),
          processTelemetryData_count_valid s d (hvalid d (List.mem_cons_self d t))]
      simp only [List.length_cons]
      omega

theorem ingestList_append (s : ServerState) (l1 l2 : List Payload) :
    ingestList s (l1 ++ l2) = ingestList (ingestList s l1) l2 :=
  List.foldl_append _ _ _ _

/-! Claim C4: capture gating. -/

/-- Claim C4: while `telemetryCaptureEnabled = false`, ingesting a list of
valid Readings persists zero telemetry rows, broadcasts one `telemetry`
event per Reading, and still updates the per-flask snapshot for each
Reading at the moment it is processed (the snapshot for that Reading's
flask then holds its pressure, temperature and timestamp). -/
theorem C4_capture_gating (s : ServerState) (ds : List Payload)
    (hcap : s.telemetryCaptureEnabled = false)
    (hvalid : ∀ d ∈ ds, validateTelemetryData s.alertConfig d = true) :
    (ingestList s ds).telemetryRows = s.telemetryRows
    ∧ countTelemetryEvents (ingestList s ds).wsEvents
        = countTelemetryEvents s.wsEvents + ds.length
    ∧ ∀ i : Fin ds.length,
        ∃ fs, lookupFlask (ingestList s (ds.take (i.1 + 1))).flaskStates
                (ds.get i).flask_id = some fs
          ∧ fs.last_pressure = (ds.get i).P_bar_abs
          ∧ fs.last_temperature = (ds.get i).T_C
          ∧ fs.last_timestamp = (ds.get i).ts := by
  refine ⟨ingestList_rows_disabled ds s hcap, ingestList_count_valid ds s hvalid, ?_⟩
  intro i
  have htake : ds.take (i.1 + 1) = ds.take i.1 ++ [ds.get i] := by
    rw [List.take_succ]
    simp [List.get?_eq_get i.isLt]
  rw [htake, ingestList_append]
  have hcfg : (ingestList s (ds.take i.1)).alertConfig = s.alertConfig :=
    ingestList_alertConfig _ _
  have hv : validateTelemetryData (ingestList s (ds.take i.1)).alertConfig
      (ds.get i) = true := by
    rw [hcfg]
    exact hvalid _ (List.get_mem ds i.1 i.isLt)
  simpa [ingestList] using
    processTelemetryData_flask_valid (ingestList s (ds.take i.1)) (ds.get i) hv

/-- Witness for C4: two valid Readings ingested from the startup state
(capture disabled) leave the telemetry table empty and broadcast two
telemetry events. -/
theorem C4_witness :
    (ingestList serverState0 [raw7, raw8]).telemetryRows
        = serverState0.telemetryRows
    ∧ countTelemetryEvents (ingestList serverState0 [raw7, raw8]).wsEvents
        = countTelemetryEvents serverState0.wsEvents + 2 := by
  have h := C4_capture_gating serverState0 [raw7, raw8] rfl (by decide)
  exact ⟨h.1, h.2.1⟩

theorem captureIf_alertRows (s : ServerState) (d : Payload) :
    (if s.telemetryCaptureEnabled then saveTelemetryData s d else s).alertRows
      = s.alertRows := by
  split
  · exact saveTelemetryData_alertRows s d
  · rfl

theorem processTelemetryData_rows_enabled (s : ServerState) (d : Payload)
    (hcap : s.telemetryCaptureEnabled = true)
    (hvalid : validateTelemetryData s.alertConfig d = true)
    (hfresh : msgIdConflict s.telemetryRows d.msg_id = false) :
    (processTelemetryData s d).telemetryRows
      = s.telemetryRows ++ [telemetryRowOf d] := by
  unfold processTelemetryData
  rw [hvalid]
  simp [mqttPush, wsPush, runCheckAlerts, foldlFireOne_telemetryRows,
    updateFlaskState_telemetryRows, hcap, saveTelemetryData, hfresh]

theorem processTelemetryData_rows_conflict (s : ServerState) (d : Payload)
    (hconf : msgIdConflict s.telemetryRows d.msg_id = true) :
    (processTelemetryData s d).telemetryRows = s.telemetryRows := by
  unfold processTelemetryData
  split
  · rfl
  · simp [mqttPush, wsPush, runCheckAlerts, foldlFireOne_telemetryRows,
      updateFlaskState_telemetryRows, saveTelemetryData, hconf]

theorem processTelemetryData_alertRows_valid (s : ServerState) (d : Payload)
    (hvalid : validateTelemetryData s.alertConfig d = true) :
    (processTelemetryData s d).alertRows
      = s.alertRows ++ checkAlerts s.alertConfig d := by
  unfold processTelemetryData
  rw [hvalid]
  simp only [Bool.true_eq_false, if_false, mqttPush, wsPush, runCheckAlerts,
    foldlFireOne_alertRows, updateFlaskState_alertRows, captureIf_alertRows,
    updateFlaskState_alertConfig, captureIf_alertConfig]

theorem msgIdConflict_after_insert (l : List TelemetryRow) (d : Payload)
    (m : String) (hm : d.msg_id = some m) :
    msgIdConflict (l ++ [telemetryRowOf d]) d.msg_id = true := by
  unfold msgIdConflict
  rw [hm]
  show ((l ++ [telemetryRowOf d]).any fun r => r.msg_id == some m) = true
  rw [List.any_append]
  simp [telemetryRowOf, hm]

/-! Claim C2: idempotent persistence, but re-fired alerts. -/

/-- Counterexample to claim C2: ingesting the scenario Reading twice with
the same `msg_id` leaves exactly one persisted row, but the second
ingestion fires the `high_pressure` alert a second time (two alert rows
after two ingestions), contradicting "at most one set of alerts per
messageId". -/
theorem C2_counterexample :
    (processTelemetryData (processTelemetryData serverEnabled0 raw7) raw7).telemetryRows.length = 1
    ∧ (processTelemetryData serverEnabled0 raw7).alertRows.length = 1
    ∧ (processTelemetryData (processTelemetryData serverEnabled0 raw7) raw7).alertRows.length = 2 := by
  decide

/-- Claim C2 as amended: with capture enabled, ingesting a valid Reading
twice with the same fresh `messageId` persists exactly one row (the
second INSERT hits the UNIQUE constraint and is a no-op), but the Alert
Evaluator runs on every ingestion, so the second ingestion appends the
same set of alerts again. -/
theorem C2_amended_alerts_refired (s : ServerState) (d : Payload) (m : String)
    (hm : d.msg_id = some m)
    (hfresh : msgIdConflict s.telemetryRows d.msg_id = false)
    (hcap : s.telemetryCaptureEnabled = true)
    (hvalid : validateTelemetryData s.alertConfig d = true) :
    (processTelemetryData (processTelemetryData s d) d).telemetryRows
        = s.telemetryRows ++ [telemetryRowOf d]
    ∧ (processTelemetryData s d).alertRows
        = s.alertRows ++ checkAlerts s.alertConfig d
    ∧ (processTelemetryData (processTelemetryData s d) d).alertRows
        = (processTelemetryData s d).alertRows ++ checkAlerts s.alertConfig d := by
  have hrows1 : (processTelemetryData s d).telemetryRows
      = s.telemetryRows ++ [telemetryRowOf d] :=
    processTelemetryData_rows_enabled s d hcap hvalid hfresh
  have hconf : msgIdConflict (processTelemetryData s d).telemetryRows d.msg_id
      = true := by
    rw [hrows1]
    exact msgIdConflict_after_insert s.telemetryRows d m hm
  refine ⟨?_, processTelemetryData_alertRows_valid s d hvalid, ?_⟩
  · rw [processTelemetryData_rows_conflict (processTelemetryData s d) d hconf]
    exact hrows1
  · have hv1 : validateTelemetryData (processTelemetryData s d).alertConfig d
        = true := by
      rw [processTelemetryData_alertConfig]
      exact hvalid
    rw [processTelemetryData_alertRows_valid (processTelemetryData s d) d hv1,
      processTelemetryData_alertConfig]

/-- Witness for the amended C2 at the concrete scenario Reading. -/
theorem C2_witness :
    (processTelemetryData (processTelemetryData serverEnabled0 raw7) raw7).telemetryRows
        = serverEnabled0.telemetryRows ++ [telemetryRowOf raw7]
    ∧ (processTelemetryData serverEnabled0 raw7).alertRows
        = serverEnabled0.alertRows ++ checkAlerts serverEnabled0.alertConfig raw7
    ∧ (processTelemetryData (processTelemetryData serverEnabled0 raw7) raw7).alertRows
        = (processTelemetryData serverEnabled0 raw7).alertRows
            ++ checkAlerts serverEnabled0.alertConfig raw7 :=
  C2_amended_alerts_refired serverEnabled0 raw7 "a" rfl rfl rfl (by decide)

/-! Claim C1: rejected Readings and the Broadcaster. -/

/-- Counterexample to claim C1: a structurally parseable telemetry message
whose Reading fails validation (temperature missing) is still broadcast as
a `telemetry` event by `handleMQTTMessage` — rejected Readings do reach
the fan-out subscribers. -/
theorem C1_counterexample :
    validateTelemetryData serverState0.alertConfig
        (normalizeTelemetryPayload rawBad) = false
    ∧ countTelemetryEvents (handleTelemetryMessage serverState0 rawBad).wsEvents
        = 1 := by
  decide

/-- Claim C1 as amended: a Reading that fails validation never reaches
Persistence, the flask snapshot, or the Alert Evaluator
(`processTelemetryData` leaves the state untouched), but
`handleMQTTMessage` still broadcasts exactly one `telemetry` event for it
to all fan-out subscribers; when its `P_bar_abs` moreover exceeds 2.5 it
additionally persists one `pressure_warning` alert row and emits two
`new_alert` broadcasts (the saved alert from `saveAlert`'s insert callback
and the raw alert object), still without touching the telemetry table or
the flask snapshots. -/
theorem C1_amended_rejected_broadcast (s : ServerState) (raw : Payload)
    (hrej : validateTelemetryData s.alertConfig
        (normalizeTelemetryPayload raw) = false) :
    processTelemetryData s (normalizeTelemetryPayload raw) = s
    ∧ (jsGtOpt (normalizeTelemetryPayload raw).P_bar_abs (mkRat 5 2) = false →
        handleTelemetryMessage s raw
          = wsPush s (WsEvent.telemetry (normalizeTelemetryPayload raw)))
    ∧ (jsGtOpt (normalizeTelemetryPayload raw).P_bar_abs (mkRat 5 2) = true →
        (handleTelemetryMessage s raw).telemetryRows = s.telemetryRows
        ∧ (handleTelemetryMessage s raw).flaskStates = s.flaskStates
        ∧ (handleTelemetryMessage s raw).alertRows
            = s.alertRows ++
              [{ flask_id := (normalizeTelemetryPayload raw).flask_id,
                 type := "pressure_warning", severity := "high" }]
        ∧ countTelemetryEvents (handleTelemetryMessage s raw).wsEvents
            = countTelemetryEvents s.wsEvents + 1
        ∧ countNewAlertEvents (handleTelemetryMessage s raw).wsEvents
            = countNewAlertEvents s.wsEvents + 2) := by
  have h1 := processTelemetryData_invalid s (normalizeTelemetryPayload raw) hrej
  refine ⟨h1, ?_, ?_⟩
  · intro hp
    unfold handleTelemetryMessage
    simp [h1, hp]
  · intro hp
    unfold handleTelemetryMessage
    simp only [h1, hp, if_true]
    refine ⟨rfl, rfl, rfl, ?_, ?_⟩
    · simp [mqttPush, wsPush, saveAlert, countTelemetryEvents_append,
        countTelemetryEvents, WsEvent.isTelemetryEvt]
    · simp [mqttPush, wsPush, saveAlert, countNewAlertEvents_append,
        countNewAlertEvents, WsEvent.isNewAlertEvt]

/-- Witness for the amended C1 at the rejected over-pressure payload
(3 bar): no row, no snapshot change, one telemetry broadcast, one
persisted `pressure_warning` alert, two `new_alert` broadcasts. -/
theorem C1_witness :
    processTelemetryData serverState0 (normalizeTelemetryPayload rawOverpressure)
        = serverState0
    ∧ (handleTelemetryMessage serverState0 rawOverpressure).telemetryRows
        = serverState0.telemetryRows
    ∧ (handleTelemetryMessage serverState0 rawOverpressure).flaskStates
        = serverState0.flaskStates
    ∧ (handleTelemetryMessage serverState0 rawOverpressure).alertRows
        = serverState0.alertRows ++
          [{ flask_id := (normalizeTelemetryPayload rawOverpressure).flask_id,
             type := "pressure_warning", severity := "high" }]
    ∧ countTelemetryEvents
        (handleTelemetryMessage serverState0 rawOverpressure).wsEvents
        = countTelemetryEvents serverState0.wsEvents + 1
    ∧ countNewAlertEvents
        (handleTelemetryMessage serverState0 rawOverpressure).wsEvents
        = countNewAlertEvents serverState0.wsEvents + 2 := by
  have h := C1_amended_rejected_broadcast serverState0 rawOverpressure (by decide)
  have h3 := h.2.2 (by decide)
  exact ⟨h.1, h3.1, h3.2.1, h3.2.2.1, h3.2.2.2.1, h3.2.2.2.2⟩

/-! Claim C3: capture-session exclusivity. -/

/-- Counterexample to claim C3: opening a session while one is already
open yields TWO sessions with `status = enabled`, and the first session's
`stoppedAt` is still null — `openCaptureSession` never closes the
previous session, and opening twice is not a no-op. -/
theorem C3_counterexample :
    (enabledSessions (openCaptureSession
        (openCaptureSession captureState0 (some "simulation_start") none "t1")
        (some "assay_start") (some "X") "t2")).length = 2
    ∧ ((openCaptureSession
        (openCaptureSession captureState0 (some "simulation_start") none "t1")
        (some "assay_start") (some "X") "t2").sessions.map
          CaptureSession.stoppedAt) = [none, none] := by
  decide

/-- Claim C3 as amended: `openCaptureSession` only inserts a fresh
`enabled` session, re-points `currentCaptureSessionId` at it and enables
capture — it never modifies existing rows, so a previously open session
keeps `status = enabled` and `stoppedAt = null` and several sessions can
be enabled simultaneously; only `closeCaptureSession` records `stoppedAt`,
and closing with no current session leaves the rows untouched. -/
theorem C3_amended_open_inserts_only (st : CaptureState)
    (trig aid : Option String) (t : String) :
    (openCaptureSession st trig aid t).sessions
      = st.sessions ++
        [{ id := st.sessions.length + 1, status := "enabled", startedAt := t,
           stoppedAt := none, trigger := trig, assayId := aid }]
    ∧ (openCaptureSession st trig aid t).telemetryCaptureEnabled = true
    ∧ (openCaptureSession st trig aid t).currentCaptureSessionId
        = some (st.sessions.length + 1)
    ∧ (st.currentCaptureSessionId = none →
        (closeCaptureSession st trig t).sessions = st.sessions) := by
  refine ⟨rfl, rfl, rfl, ?_⟩
  intro h
  simp [closeCaptureSession, h]

/-- Witness for the amended C3 at the startup state. -/
theorem C3_witness :
    (openCaptureSession captureState0 (some "assay_start") (some "X") "t0").sessions
      = [{ id := 1, status := "enabled", startedAt := "t0", stoppedAt := none,
           trigger := some "assay_start", assayId := some "X" }]
    ∧ (closeCaptureSession captureState0 (some "assay_start") "t0").sessions
        = captureState0.sessions := by
  have h := C3_amended_open_inserts_only captureState0 (some "assay_start")
    (some "X") "t0"
  exact ⟨by simpa using h.1, h.2.2.2 rfl⟩

/-! Claim C6: the export window of the CSV auto-exporter. -/

/-- Counterexample to claim C6: the export query selects the CLOSED window
`[lastExportedUpTo, now]`, so a row whose timestamp equals a tick boundary
is exported both by the tick ending at that instant and by the next tick
starting there — the claimed half-open window `[lastExportedUpTo, now)`
and the no-row-in-two-windows property are both violated. -/
theorem C6_counterexample :
    (csvTick [rowOnBoundary] { lastCsvExportAt := "2024-01-01T00:00:00Z" }
        "2024-01-01T00:05:00Z").2 = some [rowOnBoundary]
    ∧ (csvTick [rowOnBoundary] { lastCsvExportAt := "2024-01-01T00:05:00Z" }
        "2024-01-01T00:10:00Z").2 = some [rowOnBoundary] := by
  decide

/-- Claim C6 as amended: each tick advances the single watermark to `now`
(also when the window was empty, in which case no artifact is produced),
and the extracted window is the closed interval
`lastExportedUpTo <= timestamp <= now`, so consecutive windows share their
boundary instant instead of being disjoint half-open intervals. -/
theorem C6_amended_closed_window (rows : List TelemetryRow)
    (st : CsvExportState) (now : String) :
    (csvTick rows st now).1.lastCsvExportAt = now
    ∧ ((rows.filter (inExportWindow st.lastCsvExportAt now)).isEmpty = true →
        (csvTick rows st now).2 = none)
    ∧ ∀ r ∈ rows, ∀ u, r.timestamp = some u →
        inExportWindow st.lastCsvExportAt now r
          = (sqliteTextLe st.lastCsvExportAt u && sqliteTextLe u now) := by
  refine ⟨rfl, ?_, ?_⟩
  · intro h
    have h' : rows.filter (inExportWindow st.lastCsvExportAt now) = [] := by
      simpa using h
    simp [csvTick, exportTelemetryWindowToCSV, h', orderByTimestamp]
  · intro r _ u hu
    simp [inExportWindow, hu]

/-- Witness for the amended C6: an empty table still advances the
watermark and produces no artifact. -/
theorem C6_witness :
    (csvTick [] { lastCsvExportAt := "2024-01-01T00:00:00Z" }
        "2024-01-01T00:05:00Z").1.lastCsvExportAt = "2024-01-01T00:05:00Z"
    ∧ (csvTick [] { lastCsvExportAt := "2024-01-01T00:00:00Z" }
        "2024-01-01T00:05:00Z").2 = none := by
  have h := C6_amended_closed_window []
    { lastCsvExportAt := "2024-01-01T00:00:00Z" } "2024-01-01T00:05:00Z"
  exact ⟨h.1, h.2.1 rfl⟩

/-! Claim C7: the end-to-end scenario. -/

/-- Counterexample to claim C7: the scenario message produces TWO
`telemetry` broadcasts, not one — `handleMQTTMessage` broadcasts the
payload once itself and `processTelemetryData` broadcasts it again. -/
theorem C7_counterexample :
    countTelemetryEvents (handleTelemetryMessage serverEnabled0 raw7).wsEvents
      = 2 := by
  decide

/-- Claim C7 as amended: with the default 1.5 bar threshold and capture
enabled, the scenario Reading yields exactly one persisted row, exactly
one `high_pressure`/`warning` alert, exactly one `new_alert` broadcast,
and exactly TWO `telemetry` broadcasts. -/
theorem C7_amended_end_to_end :
    (handleTelemetryMessage serverEnabled0 raw7).telemetryRows
        = [telemetryRowOf (normalizeTelemetryPayload raw7)]
    ∧ (handleTelemetryMessage serverEnabled0 raw7).alertRows
        = [{ flask_id := some 1, type := "high_pressure", severity := "warning" }]
    ∧ countNewAlertEvents (handleTelemetryMessage serverEnabled0 raw7).wsEvents
        = 1
    ∧ countTelemetryEvents (handleTelemetryMessage serverEnabled0 raw7).wsEvents
        = 2 := by
  decide
